import Mathlib

/-!
Shallow embedding of the AgroHub agronomic recommendation engine
(`agri_backend/services/recommender.py`, `agri_backend/services/bhuvan_api.py`,
`agri_backend/routes/recommendation_routes.py`) and proofs about it.

Python floats are modelled as exact rationals, Python strings as `String`,
Python dict fields that may be absent as `Option`, and Python exceptions as
`Except PyError`.  Python truthiness tests (`if d.get(k):`) are modelled
explicitly: a numeric `0` and an empty string are falsy.
-/

set_option autoImplicit false

/-- A Python runtime error class that matters for this code base. -/
inductive PyError where
  /-- Raised e.g. by comparing a str with an int. -/
  | typeError
  /-- Raised e.g. by reading an attribute that was never assigned. -/
  | attributeError
  /-- Raised by pydantic when a required model field is missing. -/
  | validationError
  deriving DecidableEq, Repr

/-- A Python value that is either a number or a string; soil nutrient fields
hold either a numeric amount or a categorical tier string such as "medium". -/
inductive PyVal where
  | num (q : ℚ)
  | str (s : String)
  deriving DecidableEq, Repr

/-- Python truthiness of a `PyVal`: `0` and `""` are falsy. -/
def PyVal.truthy : PyVal → Bool
  | .num q => q ≠ 0
  | .str s => s ≠ ""

/-- One entry of `CropRecommenderService.crop_database`
(`recommender.py` lines 9-120). -/
structure CropData where
  ph_range : ℚ × ℚ
  temp_range : ℚ × ℚ
  water : String
  duration : ℕ
  season : List String
  nitrogen : ℚ
  profit_per_hectare : ℚ
  yield_per_hectare : ℚ
  sustainability : ℚ
  deriving DecidableEq, Repr

/-- Catalog entry `crop_database["Rice"]` (`recommender.py` lines 10-20). -/
def rice_data : CropData :=
  { ph_range := (5.5, 7.0), temp_range := (20, 35), water := "High",
    duration := 120, season := ["Kharif", "Rabi"], nitrogen := 120,
    profit_per_hectare := 45000, yield_per_hectare := 4.0, sustainability := 7.0 }

/-- Catalog entry `crop_database["Wheat"]` (`recommender.py` lines 21-31). -/
def wheat_data : CropData :=
  { ph_range := (6.0, 7.5), temp_range := (15, 25), water := "Medium",
    duration := 120, season := ["Rabi"], nitrogen := 100,
    profit_per_hectare := 65000, yield_per_hectare := 4.5, sustainability := 8.5 }

/-- Catalog entry `crop_database["Sugarcane"]` (`recommender.py` lines 32-42). -/
def sugarcane_data : CropData :=
  { ph_range := (6.0, 7.5), temp_range := (25, 35), water := "High",
    duration := 365, season := ["Year-round"], nitrogen := 200,
    profit_per_hectare := 120000, yield_per_hectare := 70.0, sustainability := 6.0 }

/-- Catalog entry `crop_database["Cotton"]` (`recommender.py` lines 43-53). -/
def cotton_data : CropData :=
  { ph_range := (6.0, 8.0), temp_range := (21, 30), water := "Medium",
    duration := 180, season := ["Kharif"], nitrogen := 120,
    profit_per_hectare := 55000, yield_per_hectare := 2.5, sustainability := 6.5 }

/-- Catalog entry `crop_database["Maize"]` (`recommender.py` lines 54-64). -/
def maize_data : CropData :=
  { ph_range := (5.5, 7.0), temp_range := (20, 30), water := "Medium",
    duration := 90, season := ["Kharif", "Rabi"], nitrogen := 150,
    profit_per_hectare := 40000, yield_per_hectare := 3.5, sustainability := 8.0 }

/-- Catalog entry `crop_database["Groundnut"]` (`recommender.py` lines 65-75). -/
def groundnut_data : CropData :=
  { ph_range := (6.0, 7.0), temp_range := (25, 30), water := "Low",
    duration := 120, season := ["Kharif"], nitrogen := 25,
    profit_per_hectare := 50000, yield_per_hectare := 2.0, sustainability := 9.0 }

/-- Catalog entry `crop_database["Pulses"]` (`recommender.py` lines 76-86). -/
def pulses_data : CropData :=
  { ph_range := (6.0, 7.5), temp_range := (20, 30), water := "Low",
    duration := 90, season := ["Rabi"], nitrogen := 20,
    profit_per_hectare := 35000, yield_per_hectare := 1.5, sustainability := 9.5 }

/-- Catalog entry `crop_database["Potato"]` (`recommender.py` lines 87-97). -/
def potato_data : CropData :=
  { ph_range := (5.0, 6.5), temp_range := (15, 25), water := "Medium",
    duration := 90, season := ["Rabi"], nitrogen := 120,
    profit_per_hectare := 80000, yield_per_hectare := 25.0, sustainability := 7.5 }

/-- Catalog entry `crop_database["Tomato"]` (`recommender.py` lines 98-108). -/
def tomato_data : CropData :=
  { ph_range := (6.0, 7.0), temp_range := (18, 27), water := "Medium",
    duration := 120, season := ["Rabi", "Summer"], nitrogen := 100,
    profit_per_hectare := 90000, yield_per_hectare := 30.0, sustainability := 7.0 }

/-- Catalog entry `crop_database["Onion"]` (`recommender.py` lines 109-119). -/
def onion_data : CropData :=
  { ph_range := (6.0, 7.0), temp_range := (20, 30), water := "Medium",
    duration := 120, season := ["Kharif", "Rabi"], nitrogen := 100,
    profit_per_hectare := 70000, yield_per_hectare := 20.0, sustainability := 7.5 }

/-- Model of `self.crop_database`, a dict whose iteration order is its insertion order
(`recommender.py` lines 9-120), modelled as an association list. -/
def crop_database : List (String × CropData) :=
  [("Rice", rice_data), ("Wheat", wheat_data), ("Sugarcane", sugarcane_data),
   ("Cotton", cotton_data), ("Maize", maize_data), ("Groundnut", groundnut_data),
   ("Pulses", pulses_data), ("Potato", potato_data), ("Tomato", tomato_data),
   ("Onion", onion_data)]

/-- The dict returned by `get_soil_properties` and its fallbacks
(`bhuvan_api.py`).  A key that may be missing from the dict is an `Option`
field; the live (non-fallback) dicts carry no "fallback" key, which is
modelled as `fallback := false` (both are falsy under `dict.get`). -/
structure SoilDict where
  soil_type : Option String
  land_use : Option String
  vegetation_index : Option ℚ
  soil_moisture : Option String
  elevation : Option ℚ
  ph : Option ℚ
  organic_carbon : Option ℚ
  nitrogen : Option PyVal
  phosphorus : Option PyVal
  potassium : Option PyVal
  fallback : Bool
  deriving DecidableEq, Repr

/-- The `weather_data` dict consumed by the scoring function; only the
"temperature" key is ever read (`recommender.py` lines 153-161). -/
structure WeatherData where
  temperature : Option ℚ
  deriving DecidableEq, Repr

/-- pH suitability factor, 30 points (`recommender.py` lines 139-149).
`if soil_data.get("ph"):` skips the block when the key is absent or the
value is falsy (0.0). -/
def ph_awarded (crop_data : CropData) (ph? : Option ℚ) : ℚ :=
  match ph? with
  | none => 0
  | some ph =>
    if ph = 0 then 0
    else if crop_data.ph_range.1 ≤ ph ∧ ph ≤ crop_data.ph_range.2 then 30
    else if |ph - crop_data.ph_range.1| ≤ 0.5 ∨ |ph - crop_data.ph_range.2| ≤ 0.5 then 20
    else if |ph - crop_data.ph_range.1| ≤ 1.0 ∨ |ph - crop_data.ph_range.2| ≤ 1.0 then 10
    else 0

/-- Temperature suitability factor, 25 points (`recommender.py` lines
151-161), with the same truthiness guard on `weather_data.get("temperature")`. -/
def temp_awarded (crop_data : CropData) (temp? : Option ℚ) : ℚ :=
  match temp? with
  | none => 0
  | some temp =>
    if temp = 0 then 0
    else if crop_data.temp_range.1 ≤ temp ∧ temp ≤ crop_data.temp_range.2 then 25
    else if |temp - crop_data.temp_range.1| ≤ 3 ∨ |temp - crop_data.temp_range.2| ≤ 3 then 15
    else if |temp - crop_data.temp_range.1| ≤ 5 ∨ |temp - crop_data.temp_range.2| ≤ 5 then 8
    else 0

/-- Season match factor, 20 points (`recommender.py` lines 163-166). -/
def season_awarded (crop_data : CropData) (season : String) : ℚ :=
  if crop_data.season.contains season then 20 else 0

/-- Nitrogen availability factor, 15 points (`recommender.py` lines 168-178).
When the stored nitrogen level is a truthy string (the fallback tier
"medium"), `nitrogen >= required` compares a `str` with an `int`, which
raises `TypeError` in Python 3. -/
def nitrogen_awarded (crop_data : CropData) (n? : Option PyVal) : Except PyError ℚ :=
  match n? with
  | none => .ok 0
  | some v =>
    if v.truthy then
      match v with
      | .num nitrogen =>
        .ok (if nitrogen ≥ crop_data.nitrogen then 15
             else if nitrogen ≥ crop_data.nitrogen * 0.8 then 10
             else if nitrogen ≥ crop_data.nitrogen * 0.6 then 5
             else 0)
      | .str _ => .error .typeError
    else .ok 0

/-- Model of `CropRecommenderService.calculate_crop_score` (`recommender.py` lines
133-184).  `max_score` is incremented by each factor's weight
unconditionally (lines 140, 152, 164, 169, 181), so it always totals 100;
`score` accumulates the factor awards and the sustainability rating
(line 182); the return value is `score / max_score` guarded by
`max_score > 0` (line 184).  A `TypeError` raised inside the nitrogen
block aborts the whole call. -/
def calculate_crop_score (crop_data : CropData) (soil_data : SoilDict)
    (weather_data : WeatherData) (season : String) : Except PyError ℚ :=
  match nitrogen_awarded crop_data soil_data.nitrogen with
  | .error e => .error e
  | .ok n_pts =>
    let score : ℚ := ph_awarded crop_data soil_data.ph
      + temp_awarded crop_data weather_data.temperature
      + season_awarded crop_data season + n_pts + crop_data.sustainability
    let max_score : ℚ := 30 + 25 + 20 + 15 + 10
    .ok (if max_score > 0 then score / max_score else 0)

/-- Model of `CropRecommenderService.get_market_demand` (`recommender.py` lines
221-232). -/
def get_market_demand (crop_name : String) : String :=
  if ["Wheat", "Rice", "Potato", "Tomato", "Onion"].contains crop_name then "High"
  else if ["Maize", "Cotton", "Sugarcane"].contains crop_name then "Medium"
  else "Low"

/-- The pydantic `CropRecommendation` response model
(`models/recommendation.py` lines 5-15), with its declared fields:
`crop_name_local` (default `None`) and `warnings` (default `[]`) are
optional, every other field is required. -/
structure CropRecommendation where
  crop_name : String
  crop_name_local : Option String
  suitability_score : ℚ
  expected_yield : String
  profit_margin : String
  water_requirement : String
  season : String
  reasons : List String
  warnings : Option (List String)
  deriving DecidableEq, Repr

/-- The required (no-default) field names of the pydantic
`CropRecommendation` model (`models/recommendation.py` lines 7-14). -/
def crop_recommendation_required_fields : List String :=
  ["crop_name", "suitability_score", "expected_yield", "profit_margin",
   "water_requirement", "season", "reasons"]

/-- The keyword names the service passes to `CropRecommendation(...)`
(`recommender.py` lines 253-263). -/
def recommendation_call_kwarg_names : List String :=
  ["crop_name", "confidence_score", "expected_yield", "estimated_profit",
   "sustainability_score", "water_requirement", "duration_days",
   "market_demand", "reasoning"]

/-- Round-half-to-even on an exact rational, the rounding rule of Python's
built-in `round`.  (`round(score, 2)` at `recommender.py` line 255 applies
this to the binary float nearest `score`; the claims proved here do not
depend on the difference.) -/
def round_half_even (q : ℚ) : ℤ :=
  let n : ℤ := ⌊q⌋
  if q - n < 1/2 then n
  else if 1/2 < q - n then n + 1
  else if n % 2 = 0 then n else n + 1

/-- Python's `round(q, 2)` on an exact rational. -/
def py_round2 (q : ℚ) : ℚ := (round_half_even (q * 100) : ℚ) / 100

/-- Model of the `CropRecommendation(...)` constructor call at
`recommender.py` lines 253-263.  The keyword values are all evaluated
first (`round(score, 2)`, the catalog copies, `get_market_demand`); then
pydantic validates the keywords against the model: extra keywords are
ignored, but the call supplies none of the required fields
`suitability_score`, `profit_margin`, `season` and `reasons` (compare
`crop_recommendation_required_fields` with
`recommendation_call_kwarg_names`), so the constructor always raises
`ValidationError` — no record can be built from these keywords. -/
def build_crop_recommendation (crop_name : String) (crop_data : CropData)
    (score : ℚ) : Except PyError CropRecommendation :=
  let _ := (py_round2 score, crop_data.yield_per_hectare,
    crop_data.profit_per_hectare, crop_data.sustainability, crop_data.water,
    crop_data.duration, get_market_demand crop_name)
  .error .validationError

/-- The loop body of `recommend_crops` (`recommender.py` lines 243-265):
score each catalog crop in insertion order; for a crop at or above the 0.5
threshold, build the recommendation record — which raises
`ValidationError` (see `build_crop_recommendation`) and aborts the whole
loop.  An exception from `calculate_crop_score` propagates likewise. -/
def recommend_loop (soil_data : SoilDict) (weather_data : WeatherData)
    (season : String) :
    List (String × CropData) → Except PyError (List CropRecommendation)
  | [] => .ok []
  | (crop_name, crop_data) :: rest =>
    match calculate_crop_score crop_data soil_data weather_data season with
    | .error e => .error e
    | .ok score =>
      if score ≥ 0.5 then
        match build_crop_recommendation crop_name crop_data score with
        | .error e => .error e
        | .ok rec =>
          match recommend_loop soil_data weather_data season rest with
          | .error e => .error e
          | .ok tail => .ok (rec :: tail)
      else recommend_loop soil_data weather_data season rest

/-- Model of `CropRecommenderService.recommend_crops` (`recommender.py`
lines 234-271).  The function takes no top-N argument; line 271 truncates
to the literal 5.  When no crop reaches the threshold the loop yields the
empty list: sorting it evaluates no sort key and `[:5]` of `[]` is `[]`.
A non-empty result list cannot occur (every record construction raises),
and on a hypothetical non-empty list line 268's sort key would read
`x.confidence_score`, a field the response model does not define, raising
`AttributeError`.  The `season` default (current calendar month) is
supplied by the caller here. -/
def recommend_crops (soil_data : SoilDict) (weather_data : WeatherData)
    (season : String) : Except PyError (List CropRecommendation) :=
  match recommend_loop soil_data weather_data season crop_database with
  | .error e => .error e
  | .ok [] => .ok []
  | .ok (_ :: _) => .error .attributeError

/-- The dict returned by `get_village_geocode` and `_get_fallback_geocode`
(`bhuvan_api.py`).  The live result carries no "fallback" key, modelled as
`fallback := false`. -/
structure Geocode where
  lat : ℚ
  lon : ℚ
  village : String
  district : String
  state : String
  fallback : Bool
  deriving DecidableEq, Repr

/-- Model of `state_coords`, the fixed lowercased-state lookup table of
`_get_fallback_geocode` (`bhuvan_api.py` lines 189-206). -/
def state_coords : List (String × ℚ × ℚ) :=
  [("punjab", 30.9010, 75.8573), ("haryana", 29.0588, 76.0856),
   ("uttar pradesh", 26.8467, 80.9462), ("madhya pradesh", 22.9734, 78.6569),
   ("rajasthan", 27.0238, 74.2179), ("maharashtra", 19.7515, 75.7139),
   ("karnataka", 15.3173, 75.7139), ("tamil nadu", 11.1271, 78.6569),
   ("andhra pradesh", 15.9129, 79.7400), ("telangana", 18.1124, 79.0193),
   ("delhi", 28.7041, 77.1025), ("bihar", 25.0961, 85.3131),
   ("west bengal", 22.9868, 87.8550), ("odisha", 20.9517, 85.0985),
   ("kerala", 10.8505, 76.2711), ("gujarat", 22.2587, 71.1924)]

/-- Model of Python's `str.lower()` as character-wise lowering; the table
keys involved are plain ASCII, where the two agree. -/
def py_lower (s : String) : String := String.mk (s.data.map Char.toLower)

/-- Model of `BhuvanAPIService._get_fallback_geocode` (`bhuvan_api.py` lines
186-219): look the lowercased state up in `state_coords`, defaulting to the
national centroid (20.5937, 78.9629); echo the village, mark the district
"Unknown" and tag the result as fallback. -/
def get_fallback_geocode (village state : String) : Geocode :=
  let coords := (state_coords.lookup (py_lower state)).getD (20.5937, 78.9629)
  { lat := coords.1, lon := coords.2, village := village,
    district := "Unknown", state := state, fallback := true }

/-- The dict returned by `get_lulc_data` / `_get_fallback_lulc`
(`bhuvan_api.py` lines 102-108 and 225-232); the live result carries no
"fallback" key, modelled as `fallback := false`. -/
structure LulcDict where
  soil_type : String
  land_use : String
  vegetation_index : ℚ
  soil_moisture : String
  elevation : ℚ
  fallback : Bool
  deriving DecidableEq, Repr

/-- Model of `BhuvanAPIService._get_fallback_lulc` (`bhuvan_api.py` lines 221-232). -/
def get_fallback_lulc : LulcDict :=
  { soil_type := "loamy", land_use := "agricultural", vegetation_index := 0.6,
    soil_moisture := "medium", elevation := 300, fallback := true }

/-- The JSON object fields that `get_lulc_data` reads from a successful
response (`bhuvan_api.py` lines 103-107); absent keys are `none`. -/
structure LulcPayload where
  soil_type : Option String
  land_use : Option String
  ndvi : Option ℚ
  moisture : Option String
  elevation : Option ℚ
  deriving DecidableEq, Repr

/-- One element of `properties.layers` in a SoilGrids response
(`bhuvan_api.py` lines 162-177): the layer name and the
`depths[0].values.mean` chain, where a missing "mean" key defaults to 0 and
an empty `depths` list skips the layer. -/
structure SgLayer where
  name : Option String
  depths : List (Option ℚ)
  deriving DecidableEq, Repr

/-- The `result` dict built by `_get_soilgrids_data` (`bhuvan_api.py` lines
165-177): only the keys "ph", "organic_carbon" and "nitrogen" can ever be
set. -/
structure SgResult where
  ph : Option ℚ
  organic_carbon : Option ℚ
  nitrogen : Option String
  deriving DecidableEq, Repr

/-- The empty `result = {}` dict (`bhuvan_api.py` line 165), also what the
`except` handler returns (line 184). -/
def sg_empty : SgResult := { ph := none, organic_carbon := none, nitrogen := none }

/-- Python truthiness of the `result` dict: truthy iff non-empty. -/
def SgResult.truthy (r : SgResult) : Bool :=
  r.ph.isSome || r.organic_carbon.isSome || r.nitrogen.isSome

/-- The `for layer in layers` loop of `_get_soilgrids_data`
(`bhuvan_api.py` lines 166-177). -/
def sg_parse_layers : List SgLayer → SgResult → SgResult
  | [], acc => acc
  | layer :: rest, acc =>
    match layer.depths with
    | [] => sg_parse_layers rest acc
    | d0 :: _ =>
      let value := d0.getD 0
      let acc :=
        if layer.name = some "phh2o" then { acc with ph := some (value / 10) }
        else if layer.name = some "soc" then
          { acc with organic_carbon := some (value / 10) }
        else if layer.name = some "nitrogen" then
          { acc with nitrogen := some (if value > 2000 then "high"
                                       else if value > 1000 then "medium"
                                       else "low") }
        else acc
      sg_parse_layers rest acc

/-- Outcome of one outbound HTTP call: a transport error or timeout, an
HTTP error status (turned into an exception by `raise_for_status`), a
body that is not valid JSON, or a parsed payload. -/
inductive NetOutcome (α : Type) where
  | transportError
  | httpErrorStatus
  | malformedBody
  | ok (payload : α)
  deriving DecidableEq, Repr

/-- The environment a `BhuvanAPIService` call runs in: the two configured
tokens (empty string when the variable is unset, `bhuvan_api.py` lines
19-20) and what each provider's endpoint would answer. -/
structure BhuvanEnv where
  geocode_token : String
  lulc_token : String
  geocode_net : NetOutcome (List Geocode)
  lulc_net : NetOutcome LulcPayload
  soilgrids_net : NetOutcome (List SgLayer)
  deriving Repr

/-- An adapter operation's result together with whether any outbound
network request was issued while producing it. -/
structure OpResult (α : Type) where
  val : α
  network_attempted : Bool
  deriving DecidableEq, Repr

/-- The body of the `try` block of `get_village_geocode` (`bhuvan_api.py`
lines 36-64).  Line 48 reads `self.headers`, an attribute the constructor
never assigns (the local variable is `headers`), so the body raises
`AttributeError` while evaluating the call's arguments — before any
request is issued — whenever it runs. -/
def geocode_try_body : Except PyError (OpResult Geocode) := .error .attributeError

/-- Model of `BhuvanAPIService.get_village_geocode` (`bhuvan_api.py` lines 27-71):
no token → fallback immediately; otherwise run the `try` body, whose
`AttributeError` is caught by the blanket `except Exception` (lines 69-71)
and answered with the fallback. -/
def get_village_geocode (env : BhuvanEnv) (village state : String) :
    OpResult Geocode :=
  if env.geocode_token = "" then
    { val := get_fallback_geocode village state, network_attempted := false }
  else
    match geocode_try_body with
    | .error _ =>
      { val := get_fallback_geocode village state, network_attempted := false }
    | .ok r => r

/-- Model of `BhuvanAPIService.get_lulc_data` (`bhuvan_api.py` lines 73-115):
no token → fallback immediately with no request; otherwise issue the
request and parse with per-key defaults (lines 102-108); any
`httpx.HTTPError` (transport failure or `raise_for_status`) or JSON
decode error is caught (lines 110-115) and answered with the fallback. -/
def get_lulc_data (env : BhuvanEnv) (lat lon : ℚ) : OpResult LulcDict :=
  let _ := (lat, lon)
  if env.lulc_token = "" then
    { val := get_fallback_lulc, network_attempted := false }
  else
    match env.lulc_net with
    | .ok data =>
      { val := { soil_type := data.soil_type.getD "loamy",
                 land_use := data.land_use.getD "agricultural",
                 vegetation_index := data.ndvi.getD 0.5,
                 soil_moisture := data.moisture.getD "medium",
                 elevation := data.elevation.getD 300,
                 fallback := false },
        network_attempted := true }
    | _ => { val := get_fallback_lulc, network_attempted := true }

/-- Model of `BhuvanAPIService._get_soilgrids_data` (`bhuvan_api.py` lines 145-184):
the SoilGrids request is issued unconditionally (no credential is checked);
on success the layers are folded into `result`; any failure is caught and
answered with the empty dict. -/
def get_soilgrids_data (env : BhuvanEnv) (lat lon : ℚ) : OpResult SgResult :=
  let _ := (lat, lon)
  match env.soilgrids_net with
  | .ok layers => { val := sg_parse_layers layers sg_empty, network_attempted := true }
  | _ => { val := sg_empty, network_attempted := true }

/-- Model of `_get_fallback_soil_properties` (`bhuvan_api.py` lines 234-247): note
that this dict has no "land_use", "vegetation_index" or "elevation" keys,
and its "nitrogen"/"phosphorus"/"potassium" values are tier strings. -/
def get_fallback_soil_properties : SoilDict :=
  { soil_type := some "loamy", land_use := none, vegetation_index := none,
    soil_moisture := some "medium", elevation := none, ph := some 6.8,
    organic_carbon := some 1.2, nitrogen := some (.str "medium"),
    phosphorus := some (.str "medium"), potassium := some (.str "medium"),
    fallback := true }

/-- View a LULC dict as a soil-properties dict: the five land-cover keys
are present, every chemistry key is absent. -/
def lulc_to_soil (l : LulcDict) : SoilDict :=
  { soil_type := some l.soil_type, land_use := some l.land_use,
    vegetation_index := some l.vegetation_index,
    soil_moisture := some l.soil_moisture, elevation := some l.elevation,
    ph := none, organic_carbon := none, nitrogen := none, phosphorus := none,
    potassium := none, fallback := l.fallback }

/-- Model of `BhuvanAPIService.get_soil_properties` (`bhuvan_api.py` lines 117-143):
fetch LULC, fetch SoilGrids, and if both dicts are truthy merge them as
`{**lulc_data, "ph": sg.get("ph", 6.5), ...}` (lines 129-137); otherwise
`return lulc_data or soil_grid_data or fallback` (line 139) — the LULC
dict is always non-empty, hence truthy, so that line returns it alone.
The enclosing `except` (lines 141-143) is unreachable because both inner
calls catch their own failures. -/
def get_soil_properties (env : BhuvanEnv) (lat lon : ℚ) : OpResult SoilDict :=
  let lulc := get_lulc_data env lat lon
  let sg := get_soilgrids_data env lat lon
  let attempted := lulc.network_attempted || sg.network_attempted
  if sg.val.truthy then
    { val := { lulc_to_soil lulc.val with
               ph := some (sg.val.ph.getD 6.5),
               organic_carbon := some (sg.val.organic_carbon.getD 1.5),
               nitrogen := some (.str (sg.val.nitrogen.getD "medium")),
               phosphorus := some (.str "medium"),
               potassium := some (.str "medium") },
      network_attempted := attempted }
  else
    { val := lulc_to_soil lulc.val, network_attempted := attempted }

/-- One document of the `db.cache` collection as written by the
recommendation route (`recommendation_routes.py` lines 136-147): the
response payload under "data" plus the two timestamps. -/
structure CacheEntry (α : Type) where
  data : α
  expires_at : ℤ
  updated_at : ℤ
  deriving DecidableEq, Repr

/-- The `db.cache` collection, keyed by the "key" field (at most one live
document per key, maintained by upsert). -/
def Cache (α : Type) : Type := List (String × CacheEntry α)

/-- The cache key built by the route: `"recommendations_" + uid`
(`recommendation_routes.py` line 65). -/
def cache_key (uid : String) : String := "recommendations_" ++ uid

/-- The upsert of `recommendation_routes.py` lines 136-147:
`update_one(key, $set {data, expires_at := now + ttl, updated_at := now},
upsert=True)` — the route always passes `ttl` = 24 hours
(`timedelta(hours=24)`). -/
def cache_put {α : Type} (c : Cache α) (uid : String) (payload : α)
    (now ttl : ℤ) : Cache α :=
  (cache_key uid,
    { data := payload, expires_at := now + ttl, updated_at := now }) ::
    List.filter (fun e => e.1 ≠ cache_key uid) c

/-- The cache read of `recommendation_routes.py` lines 66-72:
`find_one(key)`, served only when `expires_at > now`; an expired or
missing document falls through to fresh computation. -/
def cache_get {α : Type} (c : Cache α) (uid : String) (now : ℤ) : Option α :=
  match c.lookup (cache_key uid) with
  | some entry => if now < entry.expires_at then some entry.data else none
  | none => none

/-- A scoring input dict holding only the "ph" and "nitrogen" keys, as used
to probe `calculate_crop_score`. -/
def soil_only (ph? : Option ℚ) (n? : Option PyVal) : SoilDict :=
  { soil_type := none, land_use := none, vegetation_index := none,
    soil_moisture := none, elevation := none, ph := ph?,
    organic_carbon := none, nitrogen := n?, phosphorus := none,
    potassium := none, fallback := false }

/-- An environment with neither credential configured and every provider
endpoint unreachable. -/
def no_credentials_env : BhuvanEnv :=
  { geocode_token := "", lulc_token := "", geocode_net := .transportError,
    lulc_net := .transportError, soilgrids_net := .transportError }

/-- An environment without credentials in which the SoilGrids endpoint
answers with a single pH layer. -/
def sg_live_env : BhuvanEnv :=
  { geocode_token := "", lulc_token := "", geocode_net := .transportError,
    lulc_net := .transportError,
    soilgrids_net := .ok [{ name := some "phh2o", depths := [some 68] }] }

lemma ph_awarded_bounds (crop : CropData) (ph? : Option ℚ) :
    0 ≤ ph_awarded crop ph? ∧ ph_awarded crop ph? ≤ 30 := by
  unfold ph_awarded
  rcases ph? with _ | ph
  · norm_num
  · dsimp only
    split_ifs <;> norm_num

lemma temp_awarded_bounds (crop : CropData) (temp? : Option ℚ) :
    0 ≤ temp_awarded crop temp? ∧ temp_awarded crop temp? ≤ 25 := by
  unfold temp_awarded
  rcases temp? with _ | temp
  · norm_num
  · dsimp only
    split_ifs <;> norm_num

lemma season_awarded_bounds (crop : CropData) (season : String) :
    0 ≤ season_awarded crop season ∧ season_awarded crop season ≤ 20 := by
  unfold season_awarded
  split_ifs <;> norm_num

lemma nitrogen_awarded_bounds (crop : CropData) (n? : Option PyVal) (v : ℚ)
    (h : nitrogen_awarded crop n? = .ok v) : 0 ≤ v ∧ v ≤ 15 := by
  unfold nitrogen_awarded at h
  rcases n? with _ | val
  · injection h with h
    subst h
    norm_num
  · rcases val with q | s
    · dsimp only at h
      split_ifs at h <;> (injection h with h; subst h) <;> norm_num
    · dsimp only at h
      by_cases hb : (PyVal.str s).truthy = true
      · rw [if_pos hb] at h
        cases h
      · rw [if_neg hb] at h
        injection h with h
        subst h
        norm_num

/-- C1, as stated, is false: with pH unknown, temperature 25, season
"Kharif" and nitrogen 120, Rice is awarded 25 + 20 + 15 + 7 points over
factors that had data, but `calculate_crop_score` divides by the full 100
points, not by the 70 points possible over factors that had data. -/
theorem c1_counterexample :
    calculate_crop_score rice_data (soil_only none (some (.num 120)))
      { temperature := some 25 } "Kharif" = .ok ((25 + 20 + 15 + 7) / 100) ∧
    ((25 + 20 + 15 + 7 : ℚ) / 100 ≠ (25 + 20 + 15 + 7) / (25 + 20 + 15 + 10)) := by
  constructor
  · norm_num [calculate_crop_score, nitrogen_awarded, ph_awarded, temp_awarded,
      season_awarded, rice_data, soil_only, PyVal.truthy]
  · norm_num

/-- C1 amended: a factor whose datum is unknown contributes 0 awarded
points, but its weight still counts towards the points possible — the
denominator of `calculate_crop_score` is always the full 100 points, for
every crop and every soil/weather input on which the function returns. -/
theorem c1_denominator_always_100 :
    ∀ (crop : CropData) (soil : SoilDict) (weather : WeatherData)
      (season : String) (n_pts : ℚ),
      nitrogen_awarded crop soil.nitrogen = .ok n_pts →
      calculate_crop_score crop soil weather season =
        .ok ((ph_awarded crop soil.ph + temp_awarded crop weather.temperature +
          season_awarded crop season + n_pts + crop.sustainability) / 100) := by
  intro crop soil weather season n_pts hn
  unfold calculate_crop_score
  rw [hn]
  norm_num

/-- Witness for `c1_denominator_always_100` at Rice with pH unknown. -/
theorem c1_denominator_always_100_witness :
    nitrogen_awarded rice_data (soil_only none (some (.num 120))).nitrogen = .ok 15 ∧
    calculate_crop_score rice_data (soil_only none (some (.num 120)))
      { temperature := some 25 } "Kharif" =
      .ok ((ph_awarded rice_data (soil_only none (some (.num 120))).ph +
        temp_awarded rice_data (some 25) + season_awarded rice_data "Kharif" +
        15 + rice_data.sustainability) / 100) := by
  have h : nitrogen_awarded rice_data (soil_only none (some (.num 120))).nitrogen = .ok 15 := by
    norm_num [nitrogen_awarded, soil_only, rice_data, PyVal.truthy]
  exact ⟨h, c1_denominator_always_100 rice_data (soil_only none (some (.num 120)))
    { temperature := some 25 } "Kharif" 15 h⟩

/-- C6 is a code bug: the scoring function raises `TypeError` on every
fallback soil profile, whose nitrogen level is the tier string "medium" —
the `nitrogen >= required` comparison of a `str` with an `int` raises
instead of awarding 15/10/5/0 points. -/
theorem c6_fallback_nitrogen_type_error :
    get_fallback_soil_properties.nitrogen = some (.str "medium") ∧
    calculate_crop_score rice_data get_fallback_soil_properties
      { temperature := none } "Kharif" = .error .typeError ∧
    recommend_crops get_fallback_soil_properties { temperature := none } "Kharif" =
      .error .typeError := by
  refine ⟨rfl, ?_, ?_⟩
  · simp [calculate_crop_score, nitrogen_awarded, get_fallback_soil_properties,
      PyVal.truthy]
  · simp [recommend_crops, recommend_loop, crop_database, calculate_crop_score,
      nitrogen_awarded, get_fallback_soil_properties, PyVal.truthy]

lemma recommendation_call_missing_required :
    crop_recommendation_required_fields.all
      (fun f => recommendation_call_kwarg_names.contains f) = false := by
  decide

set_option maxHeartbeats 1000000 in
/-- C2 is a code bug: at an input where all 10 catalog crops score at or
above the 0.5 threshold (so certainly 7 do), `recommend_crops` does not
return 3 - or any - entries: the response-model constructor is called
without the required fields `suitability_score`, `profit_margin`, `season`
and `reasons`, so the first qualifying crop raises `ValidationError`.
(The route additionally passes its top-N to a service method that does
not exist, and `recommend_crops` itself hard-codes its truncation to 5.) -/
theorem c2_recommendation_unconstructible :
    crop_database.map
      (fun c => (calculate_crop_score c.2 (soil_only (some 6.5) (some (.num 200)))
        { temperature := some 25 } "Rabi").toOption.getD 0) =
      [97/100, 197/200, 19/25, 153/200, 49/50, 79/100, 199/200, 39/40,
        97/100, 39/40] ∧
    recommend_crops (soil_only (some 6.5) (some (.num 200)))
      { temperature := some 25 } "Rabi" = .error .validationError := by
  constructor
  · simp only [crop_database, List.map_cons, List.map_nil, calculate_crop_score,
      nitrogen_awarded, ph_awarded, temp_awarded, season_awarded, soil_only,
      PyVal.truthy, rice_data, wheat_data, sugarcane_data, cotton_data,
      maize_data, groundnut_data, pulses_data, potato_data, tomato_data,
      onion_data, List.contains_cons, List.contains_nil, Except.toOption,
      Option.getD]
    norm_num
    simp
    norm_num
  · simp only [recommend_crops, recommend_loop, crop_database,
      calculate_crop_score, nitrogen_awarded, ph_awarded, temp_awarded,
      season_awarded, soil_only, PyVal.truthy, rice_data,
      build_crop_recommendation, List.contains_cons, List.contains_nil]
    norm_num

lemma crop_database_invariants :
    ∀ c ∈ crop_database, 2 ≤ c.2.ph_range.1 ∧ c.2.ph_range.1 ≤ c.2.ph_range.2 ∧
      0 ≤ c.2.sustainability ∧ c.2.sustainability ≤ 10 := by
  intro c hc
  simp only [crop_database, List.mem_cons, List.not_mem_nil, or_false] at hc
  rcases hc with rfl | rfl | rfl | rfl | rfl | rfl | rfl | rfl | rfl | rfl <;>
    norm_num [rice_data, wheat_data, sugarcane_data, cotton_data, maize_data,
      groundnut_data, pulses_data, potato_data, tomato_data, onion_data]

lemma score_in_unit_interval (crop : CropData) (soil : SoilDict)
    (weather : WeatherData) (season : String) (v : ℚ)
    (h0 : 0 ≤ crop.sustainability) (h10 : crop.sustainability ≤ 10)
    (h : calculate_crop_score crop soil weather season = .ok v) :
    0 ≤ v ∧ v ≤ 1 := by
  unfold calculate_crop_score at h
  rcases hn : nitrogen_awarded crop soil.nitrogen with e | n_pts
  · rw [hn] at h
    cases h
  · rw [hn] at h
    dsimp only at h
    rw [if_pos (by norm_num)] at h
    injection h with h
    obtain ⟨hn0, hn15⟩ := nitrogen_awarded_bounds crop soil.nitrogen n_pts hn
    obtain ⟨hp0, hp30⟩ := ph_awarded_bounds crop soil.ph
    obtain ⟨ht0, ht25⟩ := temp_awarded_bounds crop weather.temperature
    obtain ⟨hs0, hs20⟩ := season_awarded_bounds crop season
    subst h
    constructor
    · apply div_nonneg _ (by norm_num)
      linarith
    · rw [div_le_one (by norm_num)]
      linarith

/-- C7: for every crop of the catalog and every soil/weather input and
season on which the scoring function returns, the suitability score lies
in the unit interval. -/
theorem c7_score_normalized :
    ∀ c ∈ crop_database, ∀ (soil : SoilDict) (weather : WeatherData)
      (season : String) (v : ℚ),
      calculate_crop_score c.2 soil weather season = .ok v → 0 ≤ v ∧ v ≤ 1 := by
  intro c hc soil weather season v h
  obtain ⟨-, -, h0, h10⟩ := crop_database_invariants c hc
  exact score_in_unit_interval c.2 soil weather season v h0 h10 h

/-- Witness for `c7_score_normalized` at Rice with a concrete input that
scores 67/100. -/
theorem c7_score_normalized_witness :
    ("Rice", rice_data) ∈ crop_database ∧
    calculate_crop_score rice_data (soil_only none (some (.num 120)))
      { temperature := some 25 } "Kharif" = .ok (67 / 100) ∧
    0 ≤ (67 : ℚ) / 100 ∧ (67 : ℚ) / 100 ≤ 1 := by
  have hmem : ("Rice", rice_data) ∈ crop_database := by
    simp [crop_database]
  have hcalc : calculate_crop_score rice_data (soil_only none (some (.num 120)))
      { temperature := some 25 } "Kharif" = .ok (67 / 100) := by
    norm_num [calculate_crop_score, nitrogen_awarded, ph_awarded, temp_awarded,
      season_awarded, rice_data, soil_only, PyVal.truthy]
  obtain ⟨hlo, hhi⟩ := c7_score_normalized ("Rice", rice_data) hmem
    (soil_only none (some (.num 120))) { temperature := some 25 } "Kharif"
    (67 / 100) hcalc
  exact ⟨hmem, hcalc, hlo, hhi⟩

/-- C10: at the scoring interface a pH of exactly 0 and a temperature of
exactly 0 are falsy, so the factor is skipped and awards 0 — the score is
the same as with the datum absent, for every crop and every input. -/
theorem c10_zero_treated_as_absent :
    ∀ (crop : CropData) (soil : SoilDict) (weather : WeatherData) (season : String),
      ph_awarded crop (some 0) = 0 ∧
      temp_awarded crop (some 0) = 0 ∧
      calculate_crop_score crop { soil with ph := some 0 } weather season =
        calculate_crop_score crop { soil with ph := none } weather season ∧
      calculate_crop_score crop soil { temperature := some 0 } season =
        calculate_crop_score crop soil { temperature := none } season := by
  intro crop soil weather season
  refine ⟨by simp [ph_awarded], by simp [temp_awarded], ?_, ?_⟩
  · simp [calculate_crop_score, ph_awarded]
  · simp [calculate_crop_score, temp_awarded]

lemma ph_band_cases (crop : CropData) (ph : ℚ)
    (hmn : 2 ≤ crop.ph_range.1) (hle : crop.ph_range.1 ≤ crop.ph_range.2) :
    (ph_awarded crop (some ph) = 30 ↔
      crop.ph_range.1 ≤ ph ∧ ph ≤ crop.ph_range.2) ∧
    (¬(crop.ph_range.1 ≤ ph ∧ ph ≤ crop.ph_range.2) →
      (|ph - crop.ph_range.1| ≤ 0.5 ∨ |ph - crop.ph_range.2| ≤ 0.5) →
      ph_awarded crop (some ph) = 20) ∧
    (¬(crop.ph_range.1 ≤ ph ∧ ph ≤ crop.ph_range.2) →
      ¬(|ph - crop.ph_range.1| ≤ 0.5 ∨ |ph - crop.ph_range.2| ≤ 0.5) →
      (|ph - crop.ph_range.1| ≤ 1.0 ∨ |ph - crop.ph_range.2| ≤ 1.0) →
      ph_awarded crop (some ph) = 10) ∧
    ((ph < crop.ph_range.1 - 1 ∨ crop.ph_range.2 + 1 < ph) →
      ph_awarded crop (some ph) = 0) := by
  refine ⟨⟨?_, ?_⟩, ?_, ?_, ?_⟩
  · intro h30
    unfold ph_awarded at h30
    dsimp only at h30
    split_ifs at h30 with hz hin h05 h10
    · exact absurd h30 (by norm_num)
    · exact hin
    · exact absurd h30 (by norm_num)
    · exact absurd h30 (by norm_num)
    · exact absurd h30 (by norm_num)
  · intro hin
    have hz : ph ≠ 0 := by
      intro h0
      rw [h0] at hin
      linarith [hin.1]
    unfold ph_awarded
    dsimp only
    rw [if_neg hz, if_pos hin]
  · intro hnin h05
    have hpos : 0 < ph := by
      rcases h05 with h | h
      · obtain ⟨h1, -⟩ := abs_le.mp h
        linarith
      · obtain ⟨h1, -⟩ := abs_le.mp h
        linarith
    unfold ph_awarded
    dsimp only
    rw [if_neg (by linarith : ¬ph = 0), if_neg hnin, if_pos h05]
  · intro hnin h05n h10
    have hpos : 0 < ph := by
      rcases h10 with h | h
      · obtain ⟨h1, -⟩ := abs_le.mp h
        linarith
      · obtain ⟨h1, -⟩ := abs_le.mp h
        linarith
    unfold ph_awarded
    dsimp only
    rw [if_neg (by linarith : ¬ph = 0), if_neg hnin, if_neg h05n, if_pos h10]
  · intro hfar
    unfold ph_awarded
    dsimp only
    by_cases hz : ph = 0
    · rw [if_pos hz]
    · have hnin : ¬(crop.ph_range.1 ≤ ph ∧ ph ≤ crop.ph_range.2) := by
        rcases hfar with h | h
        · intro hc
          linarith [hc.1]
        · intro hc
          linarith [hc.2]
      have h05n : ¬(|ph - crop.ph_range.1| ≤ 0.5 ∨ |ph - crop.ph_range.2| ≤ 0.5) := by
        push_neg
        constructor
        · rcases hfar with h | h
          · rw [abs_of_neg (by linarith : ph - crop.ph_range.1 < 0)]
            linarith
          · rw [abs_of_pos (by linarith : 0 < ph - crop.ph_range.1)]
            linarith
        · rcases hfar with h | h
          · rw [abs_of_neg (by linarith : ph - crop.ph_range.2 < 0)]
            linarith
          · rw [abs_of_pos (by linarith : 0 < ph - crop.ph_range.2)]
            linarith
      have h10n : ¬(|ph - crop.ph_range.1| ≤ 1.0 ∨ |ph - crop.ph_range.2| ≤ 1.0) := by
        push_neg
        constructor
        · rcases hfar with h | h
          · rw [abs_of_neg (by linarith : ph - crop.ph_range.1 < 0)]
            linarith
          · rw [abs_of_pos (by linarith : 0 < ph - crop.ph_range.1)]
            linarith
        · rcases hfar with h | h
          · rw [abs_of_neg (by linarith : ph - crop.ph_range.2 < 0)]
            linarith
          · rw [abs_of_pos (by linarith : 0 < ph - crop.ph_range.2)]
            linarith
      rw [if_neg hz, if_neg hnin, if_neg h05n, if_neg h10n]

/-- C5: for every catalog crop and every known pH, the pH factor awards
30 iff the pH lies in the crop's interval, 20 when outside it but within
0.5 of a bound, 10 when further than 0.5 but within 1.0 of a bound, and 0
whenever the pH lies outside the interval widened by 1.0 on each side. -/
theorem c5_ph_banding :
    ∀ c ∈ crop_database, ∀ ph : ℚ,
      (ph_awarded c.2 (some ph) = 30 ↔
        c.2.ph_range.1 ≤ ph ∧ ph ≤ c.2.ph_range.2) ∧
      (¬(c.2.ph_range.1 ≤ ph ∧ ph ≤ c.2.ph_range.2) →
        (|ph - c.2.ph_range.1| ≤ 0.5 ∨ |ph - c.2.ph_range.2| ≤ 0.5) →
        ph_awarded c.2 (some ph) = 20) ∧
      (¬(c.2.ph_range.1 ≤ ph ∧ ph ≤ c.2.ph_range.2) →
        ¬(|ph - c.2.ph_range.1| ≤ 0.5 ∨ |ph - c.2.ph_range.2| ≤ 0.5) →
        (|ph - c.2.ph_range.1| ≤ 1.0 ∨ |ph - c.2.ph_range.2| ≤ 1.0) →
        ph_awarded c.2 (some ph) = 10) ∧
      ((ph < c.2.ph_range.1 - 1 ∨ c.2.ph_range.2 + 1 < ph) →
        ph_awarded c.2 (some ph) = 0) := by
  intro c hc ph
  obtain ⟨hmn, hle, -, -⟩ := crop_database_invariants c hc
  exact ph_band_cases c.2 ph hmn hle

/-- Witness for `c5_ph_banding` at Rice and pH 6, inside the Rice interval. -/
theorem c5_ph_banding_witness :
    ("Rice", rice_data) ∈ crop_database ∧
    (ph_awarded rice_data (some 6) = 30 ↔
      rice_data.ph_range.1 ≤ 6 ∧ (6 : ℚ) ≤ rice_data.ph_range.2) ∧
    ph_awarded rice_data (some 6) = 30 := by
  have hmem : ("Rice", rice_data) ∈ crop_database := by
    simp [crop_database]
  have h := (c5_ph_banding ("Rice", rice_data) hmem 6).1
  exact ⟨hmem, h, h.mpr (by norm_num [rice_data])⟩

lemma soilgrids_always_attempted (env : BhuvanEnv) (lat lon : ℚ) :
    (get_soilgrids_data env lat lon).network_attempted = true := by
  unfold get_soilgrids_data
  rcases env.soilgrids_net with _ | _ | _ | layers <;> rfl

/-- C3 amended: geocode resolution and land-cover fetch never propagate an
error, answer the deterministic fallback immediately with no network
attempt when their credential is absent, and answer the same fallback on
any transport error, HTTP error status or malformed payload; the
soil-properties fetch also always terminates in a value, but it always
makes a network attempt (the SoilGrids call checks no credential), and on
SoilGrids failure it returns the land-cover result, not the dedicated
soil-properties fallback. -/
theorem c3_adapter_never_raises :
    ∀ (env : BhuvanEnv) (village state : String) (lat lon : ℚ),
      (env.geocode_token = "" →
        get_village_geocode env village state =
          { val := get_fallback_geocode village state, network_attempted := false }) ∧
      ((get_village_geocode env village state).val =
        get_fallback_geocode village state) ∧
      (env.lulc_token = "" →
        get_lulc_data env lat lon =
          { val := get_fallback_lulc, network_attempted := false }) ∧
      ((∀ p, env.lulc_net ≠ .ok p) →
        (get_lulc_data env lat lon).val = get_fallback_lulc) ∧
      ((get_soil_properties env lat lon).network_attempted = true) ∧
      ((∀ layers, env.soilgrids_net ≠ .ok layers) →
        (get_soil_properties env lat lon).val =
          lulc_to_soil (get_lulc_data env lat lon).val) := by
  intro env village state lat lon
  refine ⟨?_, ?_, ?_, ?_, ?_, ?_⟩
  · intro h
    unfold get_village_geocode
    rw [if_pos h]
  · unfold get_village_geocode geocode_try_body
    split_ifs <;> rfl
  · intro h
    unfold get_lulc_data
    rw [if_pos h]
  · intro h
    unfold get_lulc_data
    by_cases ht : env.lulc_token = ""
    · rw [if_pos ht]
    · rw [if_neg ht]
      rcases hnet : env.lulc_net with _ | _ | _ | p
      · rfl
      · rfl
      · rfl
      · exact absurd hnet (h p)
  · unfold get_soil_properties
    cases htr : (get_soilgrids_data env lat lon).val.truthy <;>
      simp [htr, soilgrids_always_attempted]
  · intro h
    have hsg : get_soilgrids_data env lat lon =
        { val := sg_empty, network_attempted := true } := by
      unfold get_soilgrids_data
      rcases hnet : env.soilgrids_net with _ | _ | _ | layers
      · rfl
      · rfl
      · rfl
      · exact absurd hnet (h layers)
    unfold get_soil_properties
    rw [hsg]
    simp [sg_empty, SgResult.truthy]

/-- Witness for `c3_adapter_never_raises` in the no-credential,
all-failures environment. -/
theorem c3_adapter_never_raises_witness :
    get_village_geocode no_credentials_env "Rampur" "Punjab" =
      { val := get_fallback_geocode "Rampur" "Punjab", network_attempted := false } ∧
    get_lulc_data no_credentials_env 1 2 =
      { val := get_fallback_lulc, network_attempted := false } ∧
    (get_soil_properties no_credentials_env 1 2).network_attempted = true ∧
    (get_soil_properties no_credentials_env 1 2).val =
      lulc_to_soil (get_lulc_data no_credentials_env 1 2).val := by
  obtain ⟨h1, h2, h3, h4, h5, h6⟩ :=
    c3_adapter_never_raises no_credentials_env "Rampur" "Punjab" 1 2
  refine ⟨h1 rfl, h3 rfl, h5, h6 ?_⟩
  intro layers hl
  simp [no_credentials_env] at hl

/-- C3, as stated, is false for the soil-properties operation: with no
credential configured it still attempts the network (the SoilGrids call),
and when that call fails it does not return the deterministic
soil-properties fallback — the value it returns has no pH at all. -/
theorem c3_counterexample :
    no_credentials_env.geocode_token = "" ∧
    no_credentials_env.lulc_token = "" ∧
    (get_soil_properties no_credentials_env 1 2).network_attempted = true ∧
    (get_soil_properties no_credentials_env 1 2).val ≠
      get_fallback_soil_properties ∧
    (get_soil_properties no_credentials_env 1 2).val.ph = none := by
  have hval : get_soil_properties no_credentials_env 1 2 =
      { val := lulc_to_soil get_fallback_lulc, network_attempted := true } := by
    simp [get_soil_properties, get_lulc_data, get_soilgrids_data,
      no_credentials_env, sg_empty, SgResult.truthy]
  refine ⟨rfl, rfl, by rw [hval], ?_, by rw [hval]; rfl⟩
  rw [hval]
  intro h
  have hph := congrArg SoilDict.ph h
  simp [lulc_to_soil, get_fallback_lulc, get_fallback_soil_properties] at hph

/-- C4, as stated, is false: when the soil-chemistry fetch yields an empty
sample (any SoilGrids failure), the aggregated profile returned to the
scoring engine has no pH, organic carbon, nitrogen, phosphorus or
potassium field at all. -/
theorem c4_counterexample :
    (get_soil_properties no_credentials_env 1 2).val.ph = none ∧
    (get_soil_properties no_credentials_env 1 2).val.organic_carbon = none ∧
    (get_soil_properties no_credentials_env 1 2).val.nitrogen = none ∧
    (get_soil_properties no_credentials_env 1 2).val.phosphorus = none ∧
    (get_soil_properties no_credentials_env 1 2).val.potassium = none := by
  have hval : get_soil_properties no_credentials_env 1 2 =
      { val := lulc_to_soil get_fallback_lulc, network_attempted := true } := by
    simp [get_soil_properties, get_lulc_data, get_soilgrids_data,
      no_credentials_env, sg_empty, SgResult.truthy]
  rw [hval]
  exact ⟨rfl, rfl, rfl, rfl, rfl⟩

/-- C4 amended: whenever the soil-chemistry sample is non-empty, the merge
populates every required field (missing chemistry keys are filled with
defaults) and cannot fail; only an entirely empty chemistry sample makes
the aggregator return the land-cover sample alone. -/
theorem c4_merge_populates_when_chemistry_nonempty :
    ∀ (env : BhuvanEnv) (lat lon : ℚ),
      (get_soilgrids_data env lat lon).val.truthy = true →
      (get_soil_properties env lat lon).val.soil_type.isSome = true ∧
      (get_soil_properties env lat lon).val.soil_moisture.isSome = true ∧
      (get_soil_properties env lat lon).val.ph.isSome = true ∧
      (get_soil_properties env lat lon).val.organic_carbon.isSome = true ∧
      (get_soil_properties env lat lon).val.nitrogen.isSome = true ∧
      (get_soil_properties env lat lon).val.phosphorus.isSome = true ∧
      (get_soil_properties env lat lon).val.potassium.isSome = true := by
  intro env lat lon h
  unfold get_soil_properties
  simp [h, lulc_to_soil]

/-- Witness for `c4_merge_populates_when_chemistry_nonempty` in an
environment whose SoilGrids endpoint answers a single pH layer. -/
theorem c4_merge_populates_witness :
    (get_soilgrids_data sg_live_env 1 2).val.truthy = true ∧
    (get_soil_properties sg_live_env 1 2).val.ph.isSome = true ∧
    (get_soil_properties sg_live_env 1 2).val.nitrogen.isSome = true := by
  have h : (get_soilgrids_data sg_live_env 1 2).val.truthy = true := rfl
  have hall := c4_merge_populates_when_chemistry_nonempty sg_live_env 1 2 h
  exact ⟨h, hall.2.2.1, hall.2.2.2.2.1⟩

/-- C8: the fallback geocode is a pure function that always echoes the
village verbatim, marks the district unknown, tags the result as fallback,
and maps any state missing from the lowercased-state lookup table to the
fixed national-centroid coordinate. -/
theorem c8_fallback_geocode_spec :
    ∀ village state : String,
      (get_fallback_geocode village state).village = village ∧
      (get_fallback_geocode village state).district = "Unknown" ∧
      (get_fallback_geocode village state).fallback = true ∧
      (state_coords.lookup (py_lower state) = none →
        (get_fallback_geocode village state).lat = 20.5937 ∧
        (get_fallback_geocode village state).lon = 78.9629) := by
  intro village state
  refine ⟨rfl, rfl, rfl, ?_⟩
  intro h
  unfold get_fallback_geocode
  rw [h]
  exact ⟨rfl, rfl⟩

/-- Witness for `c8_fallback_geocode_spec` at a state absent from the
lookup table. -/
theorem c8_fallback_geocode_spec_witness :
    state_coords.lookup (py_lower "Narnia") = none ∧
    (get_fallback_geocode "Rampur" "Narnia").lat = 20.5937 ∧
    (get_fallback_geocode "Rampur" "Narnia").lon = 78.9629 ∧
    (get_fallback_geocode "Rampur" "Narnia").village = "Rampur" ∧
    (get_fallback_geocode "Rampur" "Narnia").district = "Unknown" := by
  have h : state_coords.lookup (py_lower "Narnia") = none := by decide
  obtain ⟨hv, hd, hf, hc⟩ := c8_fallback_geocode_spec "Rampur" "Narnia"
  obtain ⟨hla, hlo⟩ := hc h
  exact ⟨h, hla, hlo, hv, hd⟩

/-- C9: a `put` followed by a `get` strictly before the expiry returns the
stored payload, and a `get` at or after the expiry behaves exactly as if
the entry were absent — the entry is served only while `now < expires_at`. -/
theorem c9_cache_roundtrip :
    ∀ (α : Type) (c : Cache α) (uid : String) (payload : α) (now ttl t : ℤ),
      (t < now + ttl →
        cache_get (cache_put c uid payload now ttl) uid t = some payload) ∧
      (now + ttl ≤ t →
        cache_get (cache_put c uid payload now ttl) uid t = none) := by
  intro α c uid payload now ttl t
  have hl : List.lookup (cache_key uid) (cache_put c uid payload now ttl) =
      some { data := payload, expires_at := now + ttl, updated_at := now } := by
    unfold cache_put
    simp [List.lookup]
  constructor
  · intro h
    unfold cache_get
    rw [hl]
    simp [h]
  · intro h
    unfold cache_get
    rw [hl]
    simp [not_lt.mpr h]

/-- Witness for `c9_cache_roundtrip`: a 24-hour entry stored at time 0 is
served at time 100 and no longer served at time 86400. -/
theorem c9_cache_roundtrip_witness :
    ((100 : ℤ) < 0 + 86400 ∧
      cache_get (cache_put ([] : Cache ℕ) "farmer1" 7 0 86400) "farmer1" 100 =
        some 7) ∧
    ((0 : ℤ) + 86400 ≤ 86400 ∧
      cache_get (cache_put ([] : Cache ℕ) "farmer1" 7 0 86400) "farmer1" 86400 =
        none) := by
  constructor
  · exact ⟨by norm_num,
      (c9_cache_roundtrip ℕ [] "farmer1" 7 0 86400 100).1 (by norm_num)⟩
  · exact ⟨by norm_num,
      (c9_cache_roundtrip ℕ [] "farmer1" 7 0 86400 86400).2 (by norm_num)⟩
